import Mathlib

set_option maxRecDepth 100000

/-!
# Verification of the MMTk GC backend (gc/mmtk.c)

Shallow embedding of the size-class allocator, object-header writes,
finalization registry, marking/write-barrier stubs and configuration
surface of `gc/mmtk.c`, together with proofs of the specified
properties.

Machine words (`VALUE`, `size_t`) are modelled as `Nat`; a fatal
`rb_bug` is modelled as the `Except.error` (or `Option.none`) outcome
of the operation, carrying the diagnostic string.
-/

/-- The fixed size-class table.  C: `static size_t size_pool_sizes[6] =
{40, 80, 160, 320, 640, 0};` (gc/mmtk.c:97-99). -/
def size_pool_sizes : List Nat := [40, 80, 160, 320, 640, 0]

/-- C: `rb_gc_impl_size_pool_sizes` (gc/mmtk.c:101-105) returns the
table itself, for any objspace. -/
def rb_gc_impl_size_pool_sizes (objspace_ptr : Unit) : List Nat :=
  size_pool_sizes

/-- The rounding loop of `rb_gc_impl_new_obj` (gc/mmtk.c:183-189):
walk the entries; on the first entry equal to `alloc_size` keep it,
on the first entry larger than `alloc_size` replace `alloc_size` by
that entry; in both cases break. -/
def round_up_loop (alloc_size : Nat) : List Nat → Nat
  | [] => alloc_size
  | s :: rest =>
      if alloc_size = s then alloc_size
      else if alloc_size < s then s
      else round_up_loop alloc_size rest

/-- The value of `alloc_size` after the `for (int i = 0; i < 5; i++)`
loop of `rb_gc_impl_new_obj`: the loop visits exactly the first five
table entries. -/
def rounded_alloc_size (alloc_size : Nat) : Nat :=
  round_up_loop alloc_size (size_pool_sizes.take 5)

/-- The object block produced by `rb_gc_impl_new_obj`
(gc/mmtk.c:191-198): word `[-1]` holds the committed slot size,
words `[0]`/`[1]` hold flags and klass, and words `[2]`..`[4]` hold
the inline payload `v1`,`v2`,`v3` when the guards
`alloc_size > 16/24/32` allow the write (`none` models a word the
function left unwritten). -/
structure RObject where
  slot_size : Nat
  flags : Nat
  klass : Nat
  word2 : Option Nat
  word3 : Option Nat
  word4 : Option Nat
  deriving Repr, DecidableEq

/-- The process-wide finalization candidate registry fed by
`mmtk_add_obj_free_candidate` and drained at shutdown. -/
structure GCState where
  obj_free_candidates : List Nat
  deriving Repr, DecidableEq

/-- C: `rb_gc_impl_new_obj` (gc/mmtk.c:177-206).  `finalizer_p`
models the runtime upcall `rb_gc_shutdown_call_finalizer_p`; `fresh`
models the address `mmtk_alloc` returns (plus one word) for this
allocation.  Returns `none` exactly when the function hits
`rb_bug("too big")`; otherwise the written object block, its
reference, and the registry after the conditional
`mmtk_add_obj_free_candidate` call (gc/mmtk.c:201-203). -/
def rb_gc_impl_new_obj (finalizer_p : Nat → Bool) (fresh : Nat)
    (st : GCState) (klass flags v1 v2 v3 : Nat)
    ( wb_protected : Bool) (alloc_size : Nat) :
    Option (RObject × Nat × GCState) :=
  if alloc_size > 640 then none
  else
    let size := rounded_alloc_size alloc_size
    let obj : RObject :=
      { slot_size := size
        flags := flags
        klass := klass
        word2 := if size > 16 then some v1 else none
        word3 := if size > 24 then some v2 else none
        word4 := if size > 32 then some v3 else none }
    let st' : GCState :=
      { obj_free_candidates :=
          st.obj_free_candidates ++ (if finalizer_p fresh then [fresh] else []) }
    some (obj, fresh, st')

/-- C: `rb_gc_impl_obj_slot_size` (gc/mmtk.c:208-212): read the word
at offset `[-1]` of the object. -/
def rb_gc_impl_obj_slot_size (obj : RObject) : Nat :=
  obj.slot_size

/-- The lookup loop of `rb_gc_impl_size_pool_id_for_size`
(gc/mmtk.c:217-220): return the index of the first entry that is
equal to, or larger than, `size`. -/
def id_loop (size : Nat) : List Nat → Nat → Option Nat
  | [], _ => none
  | s :: rest, i =>
      if size = s then some i
      else if size < s then some i
      else id_loop size rest (i + 1)

/-- C: `rb_gc_impl_size_pool_id_for_size` (gc/mmtk.c:214-223); the
loop visits the first five table entries, and falling through is
`rb_bug("size too big")`, modelled as `none`. -/
def rb_gc_impl_size_pool_id_for_size (size : Nat) : Option Nat :=
  id_loop size (size_pool_sizes.take 5) 0

/-- C: `rb_gc_impl_size_allocatable_p` (gc/mmtk.c:225-229). -/
def rb_gc_impl_size_allocatable_p (size : Nat) : Bool :=
  size ≤ 640

/-- Modelled from the spec: `mmtk_get_all_obj_free_candidates` lives
in the MMTk Rust binding, not in this repository's sources; per the
spec the drain "retrieves all still-pending records … then clears the
registry", with ownership of the records transferred to the caller.
So it returns every registered candidate and leaves the registry
empty. -/
def mmtk_get_all_obj_free_candidates (st : GCState) :
    List Nat × GCState :=
  (st.obj_free_candidates, { obj_free_candidates := [] })

/-- C: `rb_gc_impl_shutdown_call_finalizer` (gc/mmtk.c:333-345):
retrieve all candidates, and call `rb_gc_obj_free` on each one for
which the upcall `rb_gc_shutdown_call_finalizer_p` still holds.
Returns the sequence of objects on which `rb_gc_obj_free` was
invoked, in call order, together with the resulting registry. -/
def rb_gc_impl_shutdown_call_finalizer (finalizer_p : Nat → Bool)
    (st : GCState) : List Nat × GCState :=
  let (cands, st') := mmtk_get_all_obj_free_candidates st
  (cands.filter finalizer_p, st')

/-- Outcome of a void GC-protocol entry point: either it returns
normally or it aborts via `rb_bug` with a diagnostic. -/
def GCCall := Except String Unit

/-- C: `rb_gc_impl_mark` (gc/mmtk.c:262-266). -/
def rb_gc_impl_mark (objspace_ptr : Unit) (obj : Nat) : Except String Unit :=
  .error "unimplemented"

/-- C: `rb_gc_impl_mark_and_move` (gc/mmtk.c:268-272). -/
def rb_gc_impl_mark_and_move (objspace_ptr : Unit) (ptr : Nat) : Except String Unit :=
  .error "unimplemented"

/-- C: `rb_gc_impl_mark_and_pin` (gc/mmtk.c:274-278). -/
def rb_gc_impl_mark_and_pin (objspace_ptr : Unit) (obj : Nat) : Except String Unit :=
  .error "unimplemented"

/-- C: `rb_gc_impl_mark_maybe` (gc/mmtk.c:280-283). -/
def rb_gc_impl_mark_maybe (objspace_ptr : Unit) (obj : Nat) : Except String Unit :=
  .error "unimplemented"

/-- C: `rb_gc_impl_mark_weak` (gc/mmtk.c:285-288). -/
def rb_gc_impl_mark_weak (objspace_ptr : Unit) (ptr : Nat) : Except String Unit :=
  .error "unimplemented"

/-- C: `rb_gc_impl_remove_weak` (gc/mmtk.c:290-294). -/
def rb_gc_impl_remove_weak (objspace_ptr : Unit) (parent_obj ptr : Nat) :
    Except String Unit :=
  .error "unimplemented"

/-- C: `rb_gc_impl_objspace_mark` (gc/mmtk.c:296-300). -/
def rb_gc_impl_objspace_mark (objspace_ptr : Unit) : Except String Unit :=
  .error "unimplemented"

/-- C: `rb_gc_impl_object_moved_p` (gc/mmtk.c:303-307). -/
def rb_gc_impl_object_moved_p (objspace_ptr : Unit) (obj : Nat) :
    Except String Bool :=
  .error "unimplemented"

/-- C: `rb_gc_impl_location` (gc/mmtk.c:309-313). -/
def rb_gc_impl_location (objspace_ptr : Unit) (value : Nat) :
    Except String Nat :=
  .error "unimplemented"

/-- C: `rb_gc_impl_writebarrier` (gc/mmtk.c:315): an empty body, so
the call always returns normally. -/
def rb_gc_impl_writebarrier (objspace_ptr : Unit) (a b : Nat) :
    Except String Unit :=
  .ok ()

/-- C: `rb_gc_impl_writebarrier_unprotect` (gc/mmtk.c:316): empty body. -/
def rb_gc_impl_writebarrier_unprotect (objspace_ptr : Unit) (obj : Nat) :
    Except String Unit :=
  .ok ()

/-- C: `rb_gc_impl_writebarrier_remember` (gc/mmtk.c:317): empty body. -/
def rb_gc_impl_writebarrier_remember (objspace_ptr : Unit) (obj : Nat) :
    Except String Unit :=
  .ok ()

/-- C: `rb_gc_impl_config_get` (gc/mmtk.c:162-167): returns
`rb_hash_new()`, a fresh empty hash, regardless of the backend
state. -/
def rb_gc_impl_config_get (objspace_ptr : Unit) : List (String × Nat) :=
  []

/-- C: `rb_gc_impl_config_set` (gc/mmtk.c:168-173): returns its
`hash` argument unchanged and touches nothing. -/
def rb_gc_impl_config_set (objspace_ptr : Unit)
    (hash : List (String × Nat)) : List (String × Nat) :=
  hash

/-! ## Helper lemmas -/

/-- For every request within the table, the rounding loop commits the
smallest of the five finite size classes that is at least the
request. -/
theorem rounded_spec :
    ∀ s : Nat, s ≤ 640 →
      rounded_alloc_size s ∈ size_pool_sizes.take 5 ∧
      s ≤ rounded_alloc_size s ∧
      ∀ c ∈ size_pool_sizes.take 5, s ≤ c → rounded_alloc_size s ≤ c := by
  decide

/-- Every committed size class is at least the smallest class, 40. -/
theorem forty_le_rounded : ∀ s : Nat, s ≤ 640 → 40 ≤ rounded_alloc_size s := by
  decide

/-- Within the table, the pool-id lookup succeeds. -/
theorem id_for_size_isSome :
    ∀ s : Nat, s ≤ 640 → (rb_gc_impl_size_pool_id_for_size s).isSome = true := by
  decide

/-- The lookup loop returns `none` when the probed size exceeds every
visited entry: both tests of each iteration fail and the loop falls
through. -/
theorem id_loop_none (s : Nat) (l : List Nat) (hl : ∀ c ∈ l, c < s) :
    ∀ i, id_loop s l i = none := by
  induction l with
  | nil => intro i; rfl
  | cons c rest ih =>
      intro i
      have hc : c < s := hl c (List.mem_cons_self c rest)
      have hrest : ∀ d ∈ rest, d < s :=
        fun d hd => hl d (List.mem_cons_of_mem c hd)
      simp only [id_loop]
      rw [if_neg (by omega), if_neg (by omega)]
      exact ih hrest (i + 1)

/-- Beyond the largest finite class, the pool-id lookup falls through
all five entries and hits `rb_bug("size too big")`. -/
theorem id_for_size_none (s : Nat) (h : 640 < s) :
    rb_gc_impl_size_pool_id_for_size s = none := by
  refine id_loop_none s _ ?_ 0
  intro c hc
  simp only [size_pool_sizes, List.take, List.mem_cons,
    List.not_mem_nil, or_false] at hc
  rcases hc with h1 | h1 | h1 | h1 | h1 <;> omega

/-- Shape of a successful allocation: for a request within the table,
`rb_gc_impl_new_obj` returns the fully written block, the fresh
reference, and the conditionally extended registry. -/
theorem new_obj_eq (p : Nat → Bool) (fresh : Nat) (st : GCState)
    (k f v1 v2 v3 : Nat) (wb : Bool) (s : Nat) (hs : s ≤ 640) :
    rb_gc_impl_new_obj p fresh st k f v1 v2 v3 wb s =
      some
        ({ slot_size := rounded_alloc_size s
           flags := f
           klass := k
           word2 := if rounded_alloc_size s > 16 then some v1 else none
           word3 := if rounded_alloc_size s > 24 then some v2 else none
           word4 := if rounded_alloc_size s > 32 then some v3 else none },
         fresh,
         { obj_free_candidates :=
             st.obj_free_candidates ++ (if p fresh then [fresh] else []) }) := by
  simp only [rb_gc_impl_new_obj]
  rw [if_neg (by omega)]

/-! ## Claim theorems -/

/-- C1: for every requested allocation size `s ≤ 640`,
`rb_gc_impl_new_obj` succeeds and commits as the object's slot size
the smallest entry of the size-class table {40, 80, 160, 320, 640}
that is ≥ `s`, and `rb_gc_impl_obj_slot_size` on the returned object
equals exactly that class. -/
theorem C1_new_obj_commits_smallest_class
    (p : Nat → Bool) (fresh : Nat) (st : GCState)
    (k f v1 v2 v3 : Nat) (wb : Bool) (s : Nat) (hs : s ≤ 640) :
    ∃ obj addr st',
      rb_gc_impl_new_obj p fresh st k f v1 v2 v3 wb s = some (obj, addr, st') ∧
      rb_gc_impl_obj_slot_size obj ∈ size_pool_sizes.take 5 ∧
      s ≤ rb_gc_impl_obj_slot_size obj ∧
      ∀ c ∈ size_pool_sizes.take 5, s ≤ c → rb_gc_impl_obj_slot_size obj ≤ c := by
  obtain ⟨h1, h2, h3⟩ := rounded_spec s hs
  exact ⟨_, fresh, _, new_obj_eq p fresh st k f v1 v2 v3 wb s hs, h1, h2, h3⟩

/-- Witness for C1: a request of 24 bytes is committed with slot
size 40, the smallest table entry ≥ 24. -/
theorem C1_witness :
    ∃ obj addr st',
      rb_gc_impl_new_obj (fun _ => false) 100 ⟨[]⟩ 1 2 3 4 5 true 24 =
        some (obj, addr, st') ∧
      rb_gc_impl_obj_slot_size obj ∈ size_pool_sizes.take 5 ∧
      24 ≤ rb_gc_impl_obj_slot_size obj ∧
      ∀ c ∈ size_pool_sizes.take 5, 24 ≤ c → rb_gc_impl_obj_slot_size obj ≤ c :=
  C1_new_obj_commits_smallest_class (fun _ => false) 100 ⟨[]⟩ 1 2 3 4 5 true 24
    (by decide)

/-- C2: for every requested allocation size `s > 640`,
`rb_gc_impl_new_obj` hits `rb_bug("too big")` (modelled `none`) and
never returns an object reference. -/
theorem C2_new_obj_fatal_above_largest
    (p : Nat → Bool) (fresh : Nat) (st : GCState)
    (k f v1 v2 v3 : Nat) (wb : Bool) (s : Nat) (hs : 640 < s) :
    rb_gc_impl_new_obj p fresh st k f v1 v2 v3 wb s = none := by
  simp only [rb_gc_impl_new_obj]
  rw [if_pos hs]

/-- Witness for C2: a request of 641 bytes is fatal. -/
theorem C2_witness :
    rb_gc_impl_new_obj (fun _ => false) 0 ⟨[]⟩ 0 0 0 0 0 false 641 = none :=
  C2_new_obj_fatal_above_largest (fun _ => false) 0 ⟨[]⟩ 0 0 0 0 0 false 641
    (by decide)

/-- C3: the shutdown drain retrieves all pending candidates, invokes
`rb_gc_obj_free` exactly once for each retrieved candidate that is
still eligible (`rb_gc_shutdown_call_finalizer_p` holds), none at all
for an ineligible one, then clears the registry; a second drain
processes zero records. -/
theorem C3_shutdown_drain_once (p : Nat → Bool) (st : GCState) :
    ∃ freed st',
      rb_gc_impl_shutdown_call_finalizer p st = (freed, st') ∧
      freed = st.obj_free_candidates.filter p ∧
      (∀ o, p o = true → freed.count o = st.obj_free_candidates.count o) ∧
      (∀ o, p o = false → freed.count o = 0) ∧
      st'.obj_free_candidates = [] ∧
      rb_gc_impl_shutdown_call_finalizer p st' = ([], st') := by
  refine ⟨st.obj_free_candidates.filter p, ⟨[]⟩, rfl, rfl, ?_, ?_, rfl, rfl⟩
  · intro o ho
    exact List.count_filter ho
  · intro o ho
    refine List.count_eq_zero.mpr fun hmem => ?_
    have := List.of_mem_filter hmem
    simp [ho] at this

/-- Witness for C3: registry `[1, 2, 3]` with only odd objects still
eligible: objects 1 and 3 are freed once each, 2 never, and the
second drain frees nothing. -/
theorem C3_witness :
    ∃ freed st',
      rb_gc_impl_shutdown_call_finalizer (fun o => o % 2 == 1) ⟨[1, 2, 3]⟩ =
        (freed, st') ∧
      freed = List.filter (fun o => o % 2 == 1) [1, 2, 3] ∧
      (∀ o, (o % 2 == 1) = true →
        freed.count o = List.count o [1, 2, 3]) ∧
      (∀ o, (o % 2 == 1) = false → freed.count o = 0) ∧
      st'.obj_free_candidates = [] ∧
      rb_gc_impl_shutdown_call_finalizer (fun o => o % 2 == 1) st' = ([], st') :=
  C3_shutdown_drain_once (fun o => o % 2 == 1) ⟨[1, 2, 3]⟩

/-- C4: during a successful allocation, the new object is registered
as an obj-free candidate if and only if the cleanup predicate
`rb_gc_shutdown_call_finalizer_p` holds for it at allocation time;
otherwise the registry is untouched. -/
theorem C4_registration_iff_cleanup_flag
    (p : Nat → Bool) (fresh : Nat) (st : GCState)
    (k f v1 v2 v3 : Nat) (wb : Bool) (s : Nat) (hs : s ≤ 640) :
    ∃ obj st',
      rb_gc_impl_new_obj p fresh st k f v1 v2 v3 wb s = some (obj, fresh, st') ∧
      (p fresh = true →
        st'.obj_free_candidates = st.obj_free_candidates ++ [fresh]) ∧
      (p fresh = false →
        st'.obj_free_candidates = st.obj_free_candidates) := by
  refine ⟨_, _, new_obj_eq p fresh st k f v1 v2 v3 wb s hs, ?_, ?_⟩
  · intro hp; simp [hp]
  · intro hp; simp [hp]

/-- Witness for C4: with a predicate holding on the fresh reference
42 the registry gains exactly that reference; the theorem is applied
at request size 24. -/
theorem C4_witness :
    ∃ obj st',
      rb_gc_impl_new_obj (fun o => o == 42) 42 ⟨[7]⟩ 1 2 3 4 5 false 24 =
        some (obj, 42, st') ∧
      ((42 == 42) = true →
        st'.obj_free_candidates = [7] ++ [42]) ∧
      ((42 == 42) = false →
        st'.obj_free_candidates = [7]) :=
  C4_registration_iff_cleanup_flag (fun o => o == 42) 42 ⟨[7]⟩ 1 2 3 4 5 false 24
    (by decide)

/-- C5 counterexample: the claim includes the three write-barrier
entry points among the operations that must abort, but
`rb_gc_impl_writebarrier`, `rb_gc_impl_writebarrier_unprotect` and
`rb_gc_impl_writebarrier_remember` have empty bodies and return
normally on every input — shown here at concrete inputs. -/
theorem C5_counterexample :
    rb_gc_impl_writebarrier () 0 0 = Except.ok () ∧
    rb_gc_impl_writebarrier_unprotect () 0 = Except.ok () ∧
    rb_gc_impl_writebarrier_remember () 0 = Except.ok () :=
  ⟨rfl, rfl, rfl⟩

/-- C5 (amended): every unimplemented marking and compaction
operation (mark, mark_and_move, mark_and_pin, mark_maybe, mark_weak,
remove_weak, objspace_mark, object_moved_p, location) aborts with the
diagnostic "unimplemented" on every input; the three write-barrier
operations are instead silent no-ops that return normally on every
input. -/
theorem C5_unimplemented_ops_abort (obj ptr parent a b : Nat) :
    rb_gc_impl_mark () obj = Except.error "unimplemented" ∧
    rb_gc_impl_mark_and_move () ptr = Except.error "unimplemented" ∧
    rb_gc_impl_mark_and_pin () obj = Except.error "unimplemented" ∧
    rb_gc_impl_mark_maybe () obj = Except.error "unimplemented" ∧
    rb_gc_impl_mark_weak () ptr = Except.error "unimplemented" ∧
    rb_gc_impl_remove_weak () parent ptr = Except.error "unimplemented" ∧
    rb_gc_impl_objspace_mark () = Except.error "unimplemented" ∧
    rb_gc_impl_object_moved_p () obj = Except.error "unimplemented" ∧
    rb_gc_impl_location () obj = Except.error "unimplemented" ∧
    rb_gc_impl_writebarrier () a b = Except.ok () ∧
    rb_gc_impl_writebarrier_unprotect () obj = Except.ok () ∧
    rb_gc_impl_writebarrier_remember () obj = Except.ok () :=
  ⟨rfl, rfl, rfl, rfl, rfl, rfl, rfl, rfl, rfl, rfl, rfl, rfl⟩

/-- C6: for any successful allocation with committed class
`C = rounded_alloc_size s`, the pool id of the object's slot size
equals the pool id of `C` (and the lookup succeeds); and
`rb_gc_impl_size_pool_id_for_size` is fatal on any size larger than
the largest table entry 640. -/
theorem C6_round_trip_and_fatal
    (p : Nat → Bool) (fresh : Nat) (st : GCState)
    (k f v1 v2 v3 : Nat) (wb : Bool) (s : Nat) (hs : s ≤ 640) :
    (∃ obj addr st',
      rb_gc_impl_new_obj p fresh st k f v1 v2 v3 wb s = some (obj, addr, st') ∧
      rb_gc_impl_size_pool_id_for_size (rb_gc_impl_obj_slot_size obj) =
        rb_gc_impl_size_pool_id_for_size (rounded_alloc_size s) ∧
      (rb_gc_impl_size_pool_id_for_size (rb_gc_impl_obj_slot_size obj)).isSome
        = true) ∧
    (∀ t, 640 < t → rb_gc_impl_size_pool_id_for_size t = none) := by
  constructor
  · refine ⟨_, fresh, _, new_obj_eq p fresh st k f v1 v2 v3 wb s hs, rfl, ?_⟩
    have h40 := forty_le_rounded s hs
    have hle : rounded_alloc_size s ≤ 640 := by
      obtain ⟨h1, -, -⟩ := rounded_spec s hs
      simp only [size_pool_sizes, List.take, List.mem_cons,
        List.not_mem_nil, or_false] at h1
      rcases h1 with h | h | h | h | h <;> omega
    exact id_for_size_isSome (rounded_alloc_size s) hle
  · exact fun t ht => id_for_size_none t ht

/-- Witness for C6: at request size 24 with committed class 40, the
round trip holds and, e.g., size 641 is fatal. -/
theorem C6_witness :
    (∃ obj addr st',
      rb_gc_impl_new_obj (fun _ => false) 100 ⟨[]⟩ 1 2 3 4 5 true 24 =
        some (obj, addr, st') ∧
      rb_gc_impl_size_pool_id_for_size (rb_gc_impl_obj_slot_size obj) =
        rb_gc_impl_size_pool_id_for_size (rounded_alloc_size 24) ∧
      (rb_gc_impl_size_pool_id_for_size (rb_gc_impl_obj_slot_size obj)).isSome
        = true) ∧
    (∀ t, 640 < t → rb_gc_impl_size_pool_id_for_size t = none) :=
  C6_round_trip_and_fatal (fun _ => false) 100 ⟨[]⟩ 1 2 3 4 5 true 24 (by decide)

/-- C7: the table `rb_gc_impl_size_pool_sizes` returns is the fixed
sequence 40, 80, 160, 320, 640 followed by the sentinel 0; the five
finite entries are strictly increasing, and only the final sentinel
breaks the ascending order.  (In the embedding the table is a
constant that every operation reads and none writes, so it is never
mutated.) -/
theorem C7_size_pool_table :
    rb_gc_impl_size_pool_sizes () = [40, 80, 160, 320, 640, 0] ∧
    List.Chain' (fun x y => x < y) ((rb_gc_impl_size_pool_sizes ()).take 5) ∧
    (rb_gc_impl_size_pool_sizes ()).getLast? = some 0 ∧
    ¬ List.Chain' (fun x y => x < y) (rb_gc_impl_size_pool_sizes ()) := by
  refine ⟨rfl, ?_, rfl, ?_⟩ <;>
    simp [rb_gc_impl_size_pool_sizes, size_pool_sizes, List.take,
      List.chain'_cons]

/-- C9: every successful allocation commits a slot size of at least
40, so the guards `alloc_size > 16/24/32` all pass and
`rb_gc_impl_new_obj` writes the flags and class words and all three
inline payload words `v1`, `v2`, `v3` into the object's header,
whatever the requested size. -/
theorem C9_header_fully_written
    (p : Nat → Bool) (fresh : Nat) (st : GCState)
    (k f v1 v2 v3 : Nat) (wb : Bool) (s : Nat) (hs : s ≤ 640) :
    ∃ obj addr st',
      rb_gc_impl_new_obj p fresh st k f v1 v2 v3 wb s = some (obj, addr, st') ∧
      40 ≤ rb_gc_impl_obj_slot_size obj ∧
      obj.flags = f ∧
      obj.klass = k ∧
      obj.word2 = some v1 ∧
      obj.word3 = some v2 ∧
      obj.word4 = some v3 := by
  have h40 := forty_le_rounded s hs
  refine ⟨_, fresh, _, new_obj_eq p fresh st k f v1 v2 v3 wb s hs,
    h40, rfl, rfl, ?_, ?_, ?_⟩ <;>
    simp only [if_pos (by omega : rounded_alloc_size s > 16),
      if_pos (by omega : rounded_alloc_size s > 24),
      if_pos (by omega : rounded_alloc_size s > 32)]

/-- Witness for C9: the smallest possible request, 0 bytes, still
gets slot size ≥ 40 and a fully written header. -/
theorem C9_witness :
    ∃ obj addr st',
      rb_gc_impl_new_obj (fun _ => false) 8 ⟨[]⟩ 6 7 11 12 13 true 0 =
        some (obj, addr, st') ∧
      40 ≤ rb_gc_impl_obj_slot_size obj ∧
      obj.flags = 7 ∧
      obj.klass = 6 ∧
      obj.word2 = some 11 ∧
      obj.word3 = some 12 ∧
      obj.word4 = some 13 :=
  C9_header_fully_written (fun _ => false) 8 ⟨[]⟩ 6 7 11 12 13 true 0 (by decide)

/-- C10: `rb_gc_impl_size_allocatable_p s` holds exactly when
`s ≤ 640`, which is exactly when `rb_gc_impl_new_obj` avoids its
fatal "too big" branch and exactly when
`rb_gc_impl_size_pool_id_for_size` does not abort. -/
theorem C10_allocatable_iff_not_fatal
    (p : Nat → Bool) (fresh : Nat) (st : GCState)
    (k f v1 v2 v3 : Nat) (wb : Bool) (s : Nat) :
    (rb_gc_impl_size_allocatable_p s = true ↔ s ≤ 640) ∧
    (rb_gc_impl_size_allocatable_p s = true ↔
      (rb_gc_impl_new_obj p fresh st k f v1 v2 v3 wb s).isSome = true) ∧
    (rb_gc_impl_size_allocatable_p s = true ↔
      (rb_gc_impl_size_pool_id_for_size s).isSome = true) := by
  have hiff : rb_gc_impl_size_allocatable_p s = true ↔ s ≤ 640 := by
    simp [rb_gc_impl_size_allocatable_p]
  refine ⟨hiff, ?_, ?_⟩
  · rcases le_or_lt s 640 with h | h
    · rw [new_obj_eq p fresh st k f v1 v2 v3 wb s h]
      simp [hiff, h]
    · rw [C2_new_obj_fatal_above_largest p fresh st k f v1 v2 v3 wb s h]
      simp [hiff]
      omega
  · rcases le_or_lt s 640 with h | h
    · rw [id_for_size_isSome s h]
      simp [hiff, h]
    · rw [id_for_size_none s h]
      simp [hiff]
      omega

/-- C8 counterexample: `rb_gc_impl_config_set` does not reject a map
containing an unknown key — fed the map `[("unknown_key", 1)]` it
returns that map unchanged (the C body is `return hash;` with no
check), while the stored configuration visible through
`rb_gc_impl_config_get` is the empty map. -/
theorem C8_counterexample :
    rb_gc_impl_config_set () [("unknown_key", 1)] = [("unknown_key", 1)] ∧
    rb_gc_impl_config_get () = [] :=
  ⟨rfl, rfl⟩

/-- C8 (amended): `rb_gc_impl_config_set` performs no unknown-key
rejection at all; it is a no-op that returns its argument and applies
no key, so trivially no partial application ever occurs and the
configuration observable through `rb_gc_impl_config_get` (always the
empty map) is unchanged by any `rb_gc_impl_config_set` call. -/
theorem C8_config_set_no_op (cfg : List (String × Nat)) :
    rb_gc_impl_config_set () cfg = cfg ∧
    rb_gc_impl_config_get () = [] :=
  ⟨rfl, rfl⟩
